import Mathlib

/-!
Verification of the token-lifecycle and send-pacing subsystem of the
twitter-mcp server.  The definitions below are a shallow embedding of the
TypeScript sources: the module-level caches of `index.ts` (the variant with
per-user pacing) become explicit association lists threaded through the
operations, `Date.now()` becomes an explicit `Nat` millisecond argument at
each point the source reads the clock, network calls (token refresh, media
upload, the platform post call, profile lookup) become explicit outcome
parameters, and `Math.random()` becomes an explicit `Nat` draw.  JavaScript
quirks that the source relies on are embedded faithfully: template
interpolation of `undefined` producing the string "undefined", the `||`
operator treating `0` and `""` as absent, and string truthiness.
-/

namespace TwitterMcp

instance exceptDecEq {e a : Type} [DecidableEq e] [DecidableEq a] : DecidableEq (Except e a) :=
  fun x y =>
    match x, y with
    | .ok v, .ok w =>
        if h : v = w then isTrue (by rw [h]) else isFalse (fun hh => by cases hh; exact h rfl)
    | .error v, .error w =>
        if h : v = w then isTrue (by rw [h]) else isFalse (fun hh => by cases hh; exact h rfl)
    | .ok _, .error _ => isFalse (fun hh => Except.noConfusion hh)
    | .error _, .ok _ => isFalse (fun hh => Except.noConfusion hh)

/-- Embeds the `TokenCacheEntry` interface of `index.ts`. -/
structure TokenCacheEntry where
  access_token : String
  expires_at : Nat
  refresh_token : Option String
  deriving Repr, DecidableEq

/-- Embeds the `UserDelayInfo` interface of `index.ts`. -/
structure UserDelayInfo where
  nextSendTime : Nat
  delaySeconds : Nat
  deriving Repr, DecidableEq

/-- Embeds the `OAuth2TokenResponse` interface of `oauth2.ts`. -/
structure OAuth2TokenResponse where
  access_token : String
  token_type : String
  expires_in : Option Nat
  refresh_token : Option String
  scope : Option String
  deriving Repr, DecidableEq

/-- The caller-supplied request headers read by `getUserClient` and
`handleOncePostTweet`.  A field is `none` when the header is absent. -/
structure Headers where
  twitter_client_id : Option String
  twitter_client_secret : Option String
  twitter_refresh_token : Option String
  access_token : Option String
  user_id : Option String
  server_id : Option String
  update_config_url : Option String
  deriving Repr, DecidableEq

/-- A parsed `post_tweet` argument object (`PostTweetSchema`).  Absent
`images`/`videos` arrays are embedded as `[]`, which takes the same branch
as `undefined` in every guard of the source. -/
structure PostTweetArgs where
  text : String
  reply_to_tweet_id : Option String
  images : List String
  videos : List String
  deriving Repr, DecidableEq

/-- The module-level `tokenCache : Record<string, TokenCacheEntry>`. -/
abbrev TokenCache := List (String × TokenCacheEntry)

/-- The module-level `userDelayCache : Record<string, UserDelayInfo>`. -/
abbrev DelayCache := List (String × UserDelayInfo)

/-- `record[key]` on a JS object embedded as an association list. -/
def mapLookup {α : Type} : List (String × α) → String → Option α
  | [], _ => none
  | (k, v) :: rest, key => if k = key then some v else mapLookup rest key

/-- `delete record[key]` on a JS object: removes every binding of `key`. -/
def mapErase {α : Type} : List (String × α) → String → List (String × α)
  | [], _ => []
  | (k, v) :: rest, key =>
      if k = key then mapErase rest key else (k, v) :: mapErase rest key

/-- `record[key] = v` on a JS object: overwrites the binding of `key`. -/
def mapInsert {α : Type} (m : List (String × α)) (key : String) (v : α) : List (String × α) :=
  (key, v) :: mapErase m key

theorem mapLookup_erase_self {α : Type} (m : List (String × α)) (k : String) :
    mapLookup (mapErase m k) k = none := by
  induction m with
  | nil => rfl
  | cons p rest ih =>
      obtain ⟨a, v⟩ := p
      by_cases hak : a = k
      · simpa [mapErase, hak] using ih
      · simp [mapErase, mapLookup, hak, ih]

theorem mapLookup_erase_ne {α : Type} (m : List (String × α)) (k k₂ : String) (h : k₂ ≠ k) :
    mapLookup (mapErase m k) k₂ = mapLookup m k₂ := by
  induction m with
  | nil => rfl
  | cons p rest ih =>
      obtain ⟨a, v⟩ := p
      by_cases hak : a = k
      · subst hak
        have : ¬ a = k₂ := fun hh => h (hh ▸ rfl)
        simp [mapErase, mapLookup, this, ih]
      · by_cases hak2 : a = k₂
        · simp [mapErase, mapLookup, hak, hak2, h]
        · simp [mapErase, mapLookup, hak, hak2, ih]

theorem mapLookup_insert_self {α : Type} (m : List (String × α)) (k : String) (v : α) :
    mapLookup (mapInsert m k v) k = some v := by
  simp [mapInsert, mapLookup]

theorem mapLookup_insert_ne {α : Type} (m : List (String × α)) (k k₂ : String) (v : α)
    (h : k₂ ≠ k) : mapLookup (mapInsert m k v) k₂ = mapLookup m k₂ := by
  have : ¬ k = k₂ := fun hh => h (hh ▸ rfl)
  simp [mapInsert, mapLookup, this, mapLookup_erase_ne m k k₂ h]

/-- JS template interpolation of a possibly-`undefined` string value:
an absent value renders as the literal string "undefined". -/
def jsStr : Option String → String
  | none => "undefined"
  | some s => s

/-- JS truthiness of a possibly-`undefined` string: `undefined` and the
empty string are falsy, every other string is truthy. -/
def truthyStr : Option String → Bool
  | none => false
  | some s => decide (s ≠ "")

/-- JS `x || d` where `x` is a possibly-`undefined` number: `undefined`
and `0` are falsy, so both fall back to the default. -/
def jsOrNat : Option Nat → Nat → Nat
  | none, d => d
  | some n, d => if n = 0 then d else n

/-- JS `s || d` on strings: the empty string is falsy. -/
def jsOrStr (s d : String) : String := if s = "" then d else s

/-- `process.env.X || ''`: an unset environment variable becomes `""`. -/
def envStr : Option String → String
  | none => ""
  | some s => s

/-- `Math.ceil(a / b)` on non-negative integers. -/
def ceilDiv (a b : Nat) : Nat := (a + b - 1) / b

/-- `const ONE_HOUR_MS = 60 * 60` (the source's misnamed seconds value;
it is always multiplied by 1000 before use). -/
def ONE_HOUR_MS : Nat := 60 * 60

def MIN_DELAY_SECONDS : Nat := 1

def MAX_DELAY_SECONDS : Nat := 5

/-- `generateRandomDelay`: `Math.floor(Math.random() * (MAX - MIN + 1)) + MIN`,
with the uniform draw `Math.floor(Math.random() * 5)` embedded as `r % 5`. -/
def generateRandomDelay (r : Nat) : Nat :=
  r % (MAX_DELAY_SECONDS - MIN_DELAY_SECONDS + 1) + MIN_DELAY_SECONDS

/-- The composite cache key `` `${userId}:${serverId}` `` built from two
strings. -/
def cacheKeyStr (userId serverId : String) : String := userId ++ ":" ++ serverId

/-- The composite cache key built from possibly-absent header values. -/
def cacheKey (userId serverId : Option String) : String :=
  cacheKeyStr (jsStr userId) (jsStr serverId)

/-- `setUserNextSendTime`: stores `Date.now() + delaySeconds * 1000` under
the composite key. -/
def setUserNextSendTime (dc : DelayCache) (userId serverId : Option String)
    (delaySeconds now : Nat) : DelayCache :=
  mapInsert dc (cacheKey userId serverId) ⟨now + delaySeconds * 1000, delaySeconds⟩

/-- The result shape of `checkUserCanSend`. -/
structure CanSendResult where
  canSend : Bool
  waitTime : Option Nat
  deriving Repr, DecidableEq

/-- `checkUserCanSend`: no entry means sending is allowed; otherwise the
stored `nextSendTime` is compared with `now`, and the remaining wait is
`Math.ceil((nextSendTime - now) / 1000)` (positive in the blocked branch,
so the source's `Math.max(0, ·)` is the identity there). -/
def checkUserCanSend (dc : DelayCache) (userId serverId : Option String)
    (now : Nat) : CanSendResult :=
  match mapLookup dc (cacheKey userId serverId) with
  | none => ⟨true, none⟩
  | some info =>
      if info.nextSendTime ≤ now then ⟨true, none⟩
      else ⟨false, some (ceilDiv (info.nextSendTime - now) 1000)⟩

/-- `clearUserDelay`: `delete userDelayCache[key]`.  The returned boolean is
JS `delete` on a plain object property, which is `true` whether or not the
key was present. -/
def clearUserDelay (dc : DelayCache) (userId serverId : Option String) : DelayCache × Bool :=
  (mapErase dc (cacheKey userId serverId), true)

/-- `clearUserTokenCache`: `delete tokenCache[key]` (see `clearUserDelay`
for the returned boolean). -/
def clearUserTokenCache (tc : TokenCache) (userId serverId : Option String) : TokenCache × Bool :=
  (mapErase tc (cacheKey userId serverId), true)

/-- `s.includes(pat)`. -/
def strIncludes (s pat : String) : Bool := decide (1 < (s.splitOn pat).length)

/-- JS `s.replace(pat, repl)` with a string pattern: replaces only the
first occurrence, and returns `s` unchanged when `pat` does not occur. -/
def replaceFirst (s pat repl : String) : String :=
  match s.splitOn pat with
  | [] => s
  | [t] => t
  | t :: rest => t ++ repl ++ String.intercalate pat rest

/-- The sibling configuration URL derived inside `OAuth2Helper.refreshToken`:
toggle the `omnimcp-be-dev` / `omnimcp-be` naming convention in the supplied
update-config URL. -/
def deriveSibling (url : String) : String :=
  if strIncludes url "omnimcp-be-dev" then replaceFirst url "omnimcp-be-dev" "omnimcp-be"
  else replaceFirst url "omnimcp-be" "omnimcp-be-dev"

/-- One outbound `update_config_prod` POST: the request body fields and the
target URL, as records of the call. -/
structure ConfigUpdateCall where
  user_id : Option String
  mcp_server_id : Option String
  refresh_token : Option String
  url : String
  deriving Repr, DecidableEq

/-- `update_config_prod`: performs the POST (outcome supplied by the `ok`
oracle) and on failure throws `Error('Error update user config')`.  Returns
the record of the call together with its outcome. -/
def update_config_prod (userId serverId refreshTok : Option String)
    (updateConfigUrl : String) (ok : Bool) : ConfigUpdateCall × Except String Unit :=
  (⟨userId, serverId, refreshTok, updateConfigUrl⟩,
   if ok then .ok () else .error "Error update user config")

/-- `Promise.all` over two already-started tasks: rejects when either
rejects. -/
def promiseAll2 (x y : Except String Unit) : Except String Unit :=
  match x with
  | .error e => .error e
  | .ok _ => y

/-- The process environment read by `OAuth2Helper.refreshToken`. -/
structure RefreshEnv where
  dev_omnimcp_be_url : Option String
  prod_omnimcp_be_url : Option String
  deriving Repr, DecidableEq

/-- The observable outcome of one `OAuth2Helper.refreshToken` call: the
value returned (or the error thrown), and the `update_config_prod` calls
that were issued. -/
structure RefreshFlowOutcome where
  result : Except String OAuth2TokenResponse
  configCalls : List ConfigUpdateCall
  deriving Repr, DecidableEq

/-- `OAuth2Helper.refreshToken`: the token-endpoint exchange (outcome
supplied by `tokenEndpoint`), then — only on success — the two-way config
propagation.  `dev_url || updateConfigUrl` and `prod_url || extra` pick the
environment overrides when set and non-empty.  The `Promise.all` of the two
propagation calls sits inside a `try`/`catch` that only logs, so its result
is discarded and the token response is returned regardless. -/
def refreshTokenFlow (env : RefreshEnv) (userId serverId : Option String)
    (updateConfigUrl : String) (tokenEndpoint : Except String OAuth2TokenResponse)
    (prop1Ok prop2Ok : Bool) : RefreshFlowOutcome :=
  match tokenEndpoint with
  | .error e => ⟨.error ("OAuth2 token refresh failed: " ++ e), []⟩
  | .ok result =>
      let extraUpdateConfig := deriveSibling updateConfigUrl
      let dev_url := envStr env.dev_omnimcp_be_url
      let prod_url := envStr env.prod_omnimcp_be_url
      let c1 := update_config_prod userId serverId result.refresh_token
        (jsOrStr dev_url updateConfigUrl) prop1Ok
      let c2 := update_config_prod userId serverId result.refresh_token
        (jsOrStr prod_url extraUpdateConfig) prop2Ok
      let _swallowed := promiseAll2 c1.2 c2.2
      ⟨.ok result, [c1.1, c2.1]⟩

/-- The observable outcome of one `getUserClient` call: the access token
the constructed `TwitterClient` ends up with (or the thrown `McpError`
message), the token cache afterwards, and how many times the refresh flow
was invoked. -/
structure ClientOutcome where
  result : Except String String
  tokenCache : TokenCache
  refreshCalls : Nat
  deriving Repr, DecidableEq

/-- The refresh branch of `getUserClient` (the `else` arm): invoke
`OAuth2Helper.refreshToken` (summarized by its `refreshOutcome`), and on
success store `{access_token, expires_at: now + (expires_in || ONE_HOUR_MS) * 1000,
refresh_token}` in the token cache.  A thrown error is caught by the
surrounding `try` and rethrown as `McpError(401, 'auth failed with error: …')`. -/
def getUserClientRefresh (tc : TokenCache) (key : String) (now : Nat)
    (refreshOutcome : Except String OAuth2TokenResponse) : ClientOutcome :=
  match refreshOutcome with
  | .error e => ⟨.error ("auth failed with error: " ++ e), tc, 1⟩
  | .ok r =>
      ⟨.ok r.access_token,
       mapInsert tc key ⟨r.access_token, now + jsOrNat r.expires_in ONE_HOUR_MS * 1000,
         r.refresh_token⟩,
       1⟩

/-- `getUserClient`: read `tokenCache[`${userId}:${serverId}`]`; a present,
unexpired entry (`expires_at > now`) is used directly with no refresh,
anything else runs the refresh branch. -/
def getUserClient (tc : TokenCache) (headers : Headers) (now : Nat)
    (refreshOutcome : Except String OAuth2TokenResponse) : ClientOutcome :=
  let key := cacheKey headers.user_id headers.server_id
  match mapLookup tc key with
  | some cached =>
      if now < cached.expires_at then ⟨.ok cached.access_token, tc, 0⟩
      else getUserClientRefresh tc key now refreshOutcome
  | none => getUserClientRefresh tc key now refreshOutcome

/-- The milliseconds slept by the pacing pre-check at the top of
`handleOncePostTweet`: nothing when either identity header is falsy, nothing
when `checkUserCanSend` allows, otherwise `(waitTime || 0) * 1000`. -/
def pacingWaitMs (dc : DelayCache) (userId serverId : Option String) (now : Nat) : Nat :=
  if truthyStr userId && truthyStr serverId then
    let c := checkUserCanSend dc userId serverId now
    if c.canSend then 0 else c.waitTime.getD 0 * 1000
  else 0

/-- The network/clock/randomness environment of one `handleOncePostTweet`
call, in source order: `tCheck` is `Date.now()` during the pacing check,
`tClient` is `Date.now()` inside `getUserClient`, `refreshOutcome` is what
`OAuth2Helper.refreshToken` would produce if invoked, `mediaIds` is what
`handleUploadMedia` returns, `postOutcome` is the platform's answer to
`client.postTweet` (the new tweet id, or the thrown platform error), `rand`
feeds `generateRandomDelay`, and `tSend` is `Date.now()` inside
`setUserNextSendTime`. -/
structure OncePostEnv where
  tCheck : Nat
  tClient : Nat
  refreshOutcome : Except String OAuth2TokenResponse
  mediaIds : List String
  postOutcome : Except String String
  rand : Nat
  tSend : Nat
  deriving Repr, DecidableEq

/-- The observable outcome of one `handleOncePostTweet` call. -/
structure OnceOutcome where
  result : Except String String
  tokenCache : TokenCache
  delayCache : DelayCache
  refreshCalls : Nat
  waitedMs : Nat
  deriving Repr, DecidableEq

/-- `handleOncePostTweet` (the pacing-enabled variant): pacing pre-check
(only when both identity headers are truthy), client resolution via
`getUserClient`, the all-failed-media guard, the platform post call, and —
only when the call succeeded with a truthy tweet id — `setUserNextSendTime`
with a fresh random delay.  Every failure rethrows without touching the
delay cache. -/
def handleOncePostTweet (tc : TokenCache) (dc : DelayCache) (headers : Headers)
    (args : PostTweetArgs) (env : OncePostEnv) : OnceOutcome :=
  let userId := headers.user_id
  let serverId := headers.server_id
  let waitedMs := pacingWaitMs dc userId serverId env.tCheck
  let cres := getUserClient tc headers env.tClient env.refreshOutcome
  match cres.result with
  | .error e => ⟨.error e, cres.tokenCache, dc, cres.refreshCalls, waitedMs⟩
  | .ok _ =>
      if (0 < args.images.length ∨ 0 < args.videos.length) ∧ env.mediaIds.length = 0 then
        ⟨.error "Invalid parameters: Invalid media", cres.tokenCache, dc, cres.refreshCalls,
         waitedMs⟩
      else
        match env.postOutcome with
        | .error e => ⟨.error e, cres.tokenCache, dc, cres.refreshCalls, waitedMs⟩
        | .ok tweetId =>
            if tweetId = "" then
              ⟨.ok tweetId, cres.tokenCache, dc, cres.refreshCalls, waitedMs⟩
            else
              ⟨.ok tweetId, cres.tokenCache,
               setUserNextSendTime dc userId serverId (generateRandomDelay env.rand) env.tSend,
               cres.refreshCalls, waitedMs⟩

/-- The observable outcome of a whole `post_tweet` / `post_tweet_thread`
tool call. -/
structure ToolOutcome where
  result : Except String String
  tokenCache : TokenCache
  delayCache : DelayCache
  refreshCalls : Nat
  deriving Repr, DecidableEq

/-- `handlePostTweet`: one `handleOncePostTweet`, then a second
`getUserClient` (at time `tProfile`, with its own refresh oracle) to resolve
the profile for the shareable URL. -/
def handlePostTweet (tc : TokenCache) (dc : DelayCache) (headers : Headers)
    (args : PostTweetArgs) (env : OncePostEnv) (tProfile : Nat)
    (refreshOutcome2 : Except String OAuth2TokenResponse) (username : String) : ToolOutcome :=
  let once := handleOncePostTweet tc dc headers args env
  match once.result with
  | .error e => ⟨.error e, once.tokenCache, once.delayCache, once.refreshCalls⟩
  | .ok tweetId =>
      let cres := getUserClient once.tokenCache headers tProfile refreshOutcome2
      match cres.result with
      | .error e => ⟨.error e, cres.tokenCache, once.delayCache, once.refreshCalls + cres.refreshCalls⟩
      | .ok _ =>
          ⟨.ok ("https://twitter.com/" ++ username ++ "/status/" ++ tweetId),
           cres.tokenCache, once.delayCache, once.refreshCalls + cres.refreshCalls⟩

/-- `tweetResult.data.reply_to_tweet_id = tweetId` in the thread loop. -/
def setReplyTo (args : PostTweetArgs) (parent : String) : PostTweetArgs :=
  ⟨args.text, some parent, args.images, args.videos⟩

/-- The observable outcome of the `post_tweet_thread` loop: `result` is
`ok` when every tweet posted (or the propagated error of the first failing
tweet), `tweetIds` the identifiers pushed so far, `parentsUsed` the
effective `reply_to_tweet_id` of each post actually attempted. -/
structure ThreadOutcome where
  result : Except String Unit
  tweetIds : List String
  parentsUsed : List (Option String)
  tokenCache : TokenCache
  delayCache : DelayCache
  deriving Repr, DecidableEq

/-- The `for (const tweet of tweets)` loop of `handlePostTweetThread`:
`prevId` is the mutable `tweetId` local (initially `''`); a truthy `prevId`
overwrites the next tweet's `reply_to_tweet_id`; the first thrown error
stops the loop and propagates. -/
def handlePostTweetThreadLoop (headers : Headers) (tc : TokenCache) (dc : DelayCache)
    (prevId : String) : List (PostTweetArgs × OncePostEnv) → ThreadOutcome
  | [] => ⟨.ok (), [], [], tc, dc⟩
  | (args, env) :: rest =>
      let args1 := if prevId = "" then args else setReplyTo args prevId
      let once := handleOncePostTweet tc dc headers args1 env
      match once.result with
      | .error e => ⟨.error e, [], [args1.reply_to_tweet_id], once.tokenCache, once.delayCache⟩
      | .ok tweetId =>
          let restOut := handlePostTweetThreadLoop headers once.tokenCache once.delayCache
            tweetId rest
          ⟨restOut.result, tweetId :: restOut.tweetIds, args1.reply_to_tweet_id :: restOut.parentsUsed,
           restOut.tokenCache, restOut.delayCache⟩

/-- `handlePostTweetThread`: the loop, then — only after every tweet
succeeded — one more `getUserClient` plus profile lookup to build the
shareable URLs. -/
def handlePostTweetThread (tc : TokenCache) (dc : DelayCache) (headers : Headers)
    (tweets : List (PostTweetArgs × OncePostEnv)) (tProfile : Nat)
    (refreshOutcome2 : Except String OAuth2TokenResponse) (username : String) :
    ThreadOutcome × Except String (List String) :=
  let loopOut := handlePostTweetThreadLoop headers tc dc "" tweets
  match loopOut.result with
  | .error e => (loopOut, .error e)
  | .ok _ =>
      let cres := getUserClient loopOut.tokenCache headers tProfile refreshOutcome2
      match cres.result with
      | .error e =>
          (⟨loopOut.result, loopOut.tweetIds, loopOut.parentsUsed, cres.tokenCache,
            loopOut.delayCache⟩, .error e)
      | .ok _ =>
          (⟨loopOut.result, loopOut.tweetIds, loopOut.parentsUsed, cres.tokenCache,
            loopOut.delayCache⟩,
           .ok (loopOut.tweetIds.map
             (fun id => "https://twitter.com/" ++ username ++ "/status/" ++ id)))

/-- The observable outcome of one administrative HTTP endpoint call. -/
structure AdminOutcome where
  tokenCache : TokenCache
  delayCache : DelayCache
  status : Nat
  deleted : Option Bool
  deriving Repr, DecidableEq

/-- The `/expired_token` handler: 400 when either id is falsy, otherwise
`clearUserTokenCache` and a 200 response. -/
def expiredTokenEndpoint (tc : TokenCache) (dc : DelayCache)
    (user_id server_id : Option String) : AdminOutcome :=
  if truthyStr user_id && truthyStr server_id then
    let cleared := clearUserTokenCache tc user_id server_id
    ⟨cleared.1, dc, 200, some cleared.2⟩
  else ⟨tc, dc, 400, none⟩

/-- The `/clear_delay` handler: 400 when either id is falsy, otherwise
`clearUserDelay` and a 200 response. -/
def clearDelayEndpoint (tc : TokenCache) (dc : DelayCache)
    (user_id server_id : Option String) : AdminOutcome :=
  if truthyStr user_id && truthyStr server_id then
    let cleared := clearUserDelay dc user_id server_id
    ⟨tc, cleared.1, 200, some cleared.2⟩
  else ⟨tc, dc, 400, none⟩

theorem handleOncePostTweet_frame (tc : TokenCache) (dc : DelayCache) (headers : Headers)
    (args : PostTweetArgs) (env : OncePostEnv) :
    (handleOncePostTweet tc dc headers args env).tokenCache
        = (getUserClient tc headers env.tClient env.refreshOutcome).tokenCache ∧
    (handleOncePostTweet tc dc headers args env).refreshCalls
        = (getUserClient tc headers env.tClient env.refreshOutcome).refreshCalls ∧
    (handleOncePostTweet tc dc headers args env).waitedMs
        = pacingWaitMs dc headers.user_id headers.server_id env.tCheck := by
  unfold handleOncePostTweet
  cases hg : (getUserClient tc headers env.tClient env.refreshOutcome).result <;>
    simp only [hg] <;> (try split) <;> (try split) <;> (try split) <;> simp

theorem getUserClient_hit (tc : TokenCache) (headers : Headers) (now : Nat)
    (ro : Except String OAuth2TokenResponse) (c : TokenCacheEntry)
    (hc : mapLookup tc (cacheKey headers.user_id headers.server_id) = some c)
    (hfresh : now < c.expires_at) :
    getUserClient tc headers now ro = ⟨.ok c.access_token, tc, 0⟩ := by
  unfold getUserClient
  simp [hc, hfresh]

theorem getUserClient_refresh (tc : TokenCache) (headers : Headers) (now : Nat)
    (r : OAuth2TokenResponse)
    (hstale : ∀ c, mapLookup tc (cacheKey headers.user_id headers.server_id) = some c →
      c.expires_at ≤ now) :
    getUserClient tc headers now (.ok r) =
      ⟨.ok r.access_token,
       mapInsert tc (cacheKey headers.user_id headers.server_id)
         ⟨r.access_token, now + jsOrNat r.expires_in ONE_HOUR_MS * 1000, r.refresh_token⟩,
       1⟩ := by
  unfold getUserClient
  cases hc : mapLookup tc (cacheKey headers.user_id headers.server_id) with
  | none => simp [hc, getUserClientRefresh]
  | some c =>
      have := hstale c hc
      have hnlt : ¬ now < c.expires_at := by omega
      simp [hc, hnlt, getUserClientRefresh]

theorem getUserClient_ok_result (tc : TokenCache) (headers : Headers) (now : Nat)
    (r : OAuth2TokenResponse) :
    ∃ tok, (getUserClient tc headers now (.ok r)).result = .ok tok := by
  unfold getUserClient getUserClientRefresh
  cases hc : mapLookup tc (cacheKey headers.user_id headers.server_id) with
  | none => exact ⟨r.access_token, by simp [hc]⟩
  | some c =>
      by_cases hfresh : now < c.expires_at
      · exact ⟨c.access_token, by simp [hc, hfresh]⟩
      · exact ⟨r.access_token, by simp [hc, hfresh]⟩

theorem handleOncePostTweet_success (tc : TokenCache) (dc : DelayCache) (headers : Headers)
    (args : PostTweetArgs) (env : OncePostEnv) (r : OAuth2TokenResponse) (id : String)
    (hr : env.refreshOutcome = .ok r) (hmi : args.images = []) (hmv : args.videos = [])
    (hp : env.postOutcome = .ok id) (hid : id ≠ "") :
    handleOncePostTweet tc dc headers args env =
      ⟨.ok id, (getUserClient tc headers env.tClient env.refreshOutcome).tokenCache,
       setUserNextSendTime dc headers.user_id headers.server_id
         (generateRandomDelay env.rand) env.tSend,
       (getUserClient tc headers env.tClient env.refreshOutcome).refreshCalls,
       pacingWaitMs dc headers.user_id headers.server_id env.tCheck⟩ := by
  obtain ⟨tok, htok⟩ := getUserClient_ok_result tc headers env.tClient r
  unfold handleOncePostTweet
  simp only [hr] at htok ⊢
  simp [htok, hmi, hmv, hp, hid]

theorem handleOncePostTweet_post_error (tc : TokenCache) (dc : DelayCache) (headers : Headers)
    (args : PostTweetArgs) (env : OncePostEnv) (r : OAuth2TokenResponse) (e : String)
    (hr : env.refreshOutcome = .ok r) (hmi : args.images = []) (hmv : args.videos = [])
    (hp : env.postOutcome = .error e) :
    (handleOncePostTweet tc dc headers args env).result = .error e ∧
    (handleOncePostTweet tc dc headers args env).delayCache = dc := by
  obtain ⟨tok, htok⟩ := getUserClient_ok_result tc headers env.tClient r
  unfold handleOncePostTweet
  simp only [hr] at htok ⊢
  simp [htok, hmi, hmv, hp]

theorem handleOncePostTweet_ok_nonempty_delay (tc : TokenCache) (dc : DelayCache)
    (headers : Headers) (args : PostTweetArgs) (env : OncePostEnv) (id : String)
    (hok : (handleOncePostTweet tc dc headers args env).result = .ok id) (hid : id ≠ "") :
    (handleOncePostTweet tc dc headers args env).delayCache
      = setUserNextSendTime dc headers.user_id headers.server_id
          (generateRandomDelay env.rand) env.tSend := by
  unfold handleOncePostTweet at hok ⊢
  cases hg : (getUserClient tc headers env.tClient env.refreshOutcome).result with
  | error e => simp [hg] at hok
  | ok tok =>
      simp only [hg] at hok ⊢
      by_cases hguard : (0 < args.images.length ∨ 0 < args.videos.length) ∧
          env.mediaIds.length = 0
      · simp [hguard] at hok
      · simp only [if_neg hguard] at hok ⊢
        cases hp : env.postOutcome with
        | error e => simp [hp] at hok
        | ok tid =>
            simp only [hp] at hok ⊢
            by_cases hz : tid = ""
            · rw [if_pos hz] at hok
              simp at hok
              exact absurd (hok ▸ hz) hid
            · simp [if_neg hz]

theorem handleOncePostTweet_error_delay (tc : TokenCache) (dc : DelayCache)
    (headers : Headers) (args : PostTweetArgs) (env : OncePostEnv) (e : String)
    (herr : (handleOncePostTweet tc dc headers args env).result = .error e) :
    (handleOncePostTweet tc dc headers args env).delayCache = dc := by
  unfold handleOncePostTweet at herr ⊢
  cases hg : (getUserClient tc headers env.tClient env.refreshOutcome).result with
  | error e₂ => simp [hg]
  | ok tok =>
      simp only [hg] at herr ⊢
      by_cases hguard : (0 < args.images.length ∨ 0 < args.videos.length) ∧
          env.mediaIds.length = 0
      · simp [hguard]
      · simp only [if_neg hguard] at herr ⊢
        cases hp : env.postOutcome with
        | error e₂ => simp [hp]
        | ok tid =>
            simp only [hp] at herr ⊢
            by_cases hz : tid = ""
            · simp [if_pos hz]
            · simp [if_neg hz] at herr

theorem generateRandomDelay_bounds (r : Nat) :
    1 ≤ generateRandomDelay r ∧ generateRandomDelay r ≤ 5 := by
  unfold generateRandomDelay MIN_DELAY_SECONDS MAX_DELAY_SECONDS
  have : r % (5 - 1 + 1) < 5 := Nat.mod_lt r (by norm_num)
  omega

theorem ceilDiv_mul_thousand (d : Nat) : ceilDiv (d * 1000) 1000 = d := by
  unfold ceilDiv
  omega

theorem le_ceilDiv_mul (a : Nat) : a ≤ ceilDiv a 1000 * 1000 := by
  unfold ceilDiv
  omega

/-- Sample refresh response used by concrete instantiations. -/
def tokR : OAuth2TokenResponse := ⟨"tok", "bearer", some 7200, some "rt2", none⟩

/-- Sample headers with both identity headers present. -/
def hdrsUS : Headers :=
  ⟨some "cid", some "cs", some "rtk", none, some "u", some "s", some "http://omnimcp-be/x"⟩

/-- Sample headers with both identity headers absent. -/
def hdrsAnon : Headers :=
  ⟨some "cid", some "cs", some "rtk", none, none, none, some "http://omnimcp-be/x"⟩

/-- Sample text-only tweet arguments. -/
def argsPlain : PostTweetArgs := ⟨"hello", none, [], []⟩

/-- Sample environment: fresh-token refresh succeeds, the platform post
succeeds with id "42", the random draw is 3 (delay 4s), sends at t=1000. -/
def envOk42 : OncePostEnv := ⟨0, 0, .ok tokR, [], .ok "42", 3, 1000⟩

/-- Sample environment: refresh succeeds but the platform post throws. -/
def envFail : OncePostEnv := ⟨0, 0, .ok tokR, [], .error "platform down", 3, 1000⟩

/-- C2: immediately after a successful post for identity K, `canSend(K)`
returns allowed=false with a waitSeconds value in the closed interval
[1,5] (namely the freshly drawn random delay), and once that many seconds
have elapsed `canSend(K)` returns allowed=true. -/
theorem c2_pacer_after_success (tc : TokenCache) (dc : DelayCache) (headers : Headers)
    (args : PostTweetArgs) (env : OncePostEnv) (id : String)
    (hok : (handleOncePostTweet tc dc headers args env).result = .ok id) (hid : id ≠ "") :
    (1 ≤ generateRandomDelay env.rand ∧ generateRandomDelay env.rand ≤ 5) ∧
    checkUserCanSend (handleOncePostTweet tc dc headers args env).delayCache
        headers.user_id headers.server_id env.tSend
      = ⟨false, some (generateRandomDelay env.rand)⟩ ∧
    ∀ t, env.tSend + generateRandomDelay env.rand * 1000 ≤ t →
      (checkUserCanSend (handleOncePostTweet tc dc headers args env).delayCache
          headers.user_id headers.server_id t).canSend = true := by
  have hd := handleOncePostTweet_ok_nonempty_delay tc dc headers args env id hok hid
  have hb := generateRandomDelay_bounds env.rand
  rw [hd]
  unfold setUserNextSendTime checkUserCanSend
  rw [mapLookup_insert_self]
  refine ⟨hb, ?_, ?_⟩
  · have hlt : ¬ (env.tSend + generateRandomDelay env.rand * 1000 ≤ env.tSend) := by omega
    simp only [hlt, if_false]
    have harith : env.tSend + generateRandomDelay env.rand * 1000 - env.tSend
        = generateRandomDelay env.rand * 1000 := by omega
    simp [harith, ceilDiv_mul_thousand]
  · intro t ht
    simp [ht]

/-- C2 witness: a concrete successful post for identity "u:s" at send time
1000 with random draw 3 (delay 4s): `canSend` is blocked with waitTime 4 at
t=1000 and allowed again at t=5000. -/
theorem c2_pacer_after_success_witness :
    (handleOncePostTweet [] [] hdrsUS argsPlain envOk42).result = .ok "42" ∧
    checkUserCanSend (handleOncePostTweet [] [] hdrsUS argsPlain envOk42).delayCache
        hdrsUS.user_id hdrsUS.server_id 1000 = ⟨false, some 4⟩ ∧
    (checkUserCanSend (handleOncePostTweet [] [] hdrsUS argsPlain envOk42).delayCache
        hdrsUS.user_id hdrsUS.server_id 5000).canSend = true :=
  ⟨by decide,
   (c2_pacer_after_success [] [] hdrsUS argsPlain envOk42 "42" (by decide) (by decide)).2.1,
   (c2_pacer_after_success [] [] hdrsUS argsPlain envOk42 "42" (by decide) (by decide)).2.2
     5000 (by decide)⟩

/-- C3: a post attempt that fails (any thrown error, in particular a
platform error from the post call) leaves the pacing state unchanged: the
delay cache after the attempt is the one before it, so `canSend` observes
the same `nextAllowedSendTime` at every instant. -/
theorem c3_failed_post_preserves_pacing (tc : TokenCache) (dc : DelayCache) (headers : Headers)
    (args : PostTweetArgs) (env : OncePostEnv) (e : String)
    (herr : (handleOncePostTweet tc dc headers args env).result = .error e) :
    (handleOncePostTweet tc dc headers args env).delayCache = dc ∧
    ∀ t, checkUserCanSend (handleOncePostTweet tc dc headers args env).delayCache
          headers.user_id headers.server_id t
        = checkUserCanSend dc headers.user_id headers.server_id t := by
  have hd := handleOncePostTweet_error_delay tc dc headers args env e herr
  exact ⟨hd, fun t => by rw [hd]⟩

/-- C3 witness: a concrete failed platform post for "u:s" (with a
pre-existing pacing entry) leaves the delay cache exactly as it was. -/
theorem c3_failed_post_preserves_pacing_witness :
    (handleOncePostTweet [] [("u:s", ⟨9000, 5⟩)] hdrsUS argsPlain envFail).result
      = .error "platform down" ∧
    (handleOncePostTweet [] [("u:s", ⟨9000, 5⟩)] hdrsUS argsPlain envFail).delayCache
      = [("u:s", ⟨9000, 5⟩)] ∧
    checkUserCanSend (handleOncePostTweet [] [("u:s", ⟨9000, 5⟩)] hdrsUS argsPlain
        envFail).delayCache hdrsUS.user_id hdrsUS.server_id 4000
      = checkUserCanSend [("u:s", ⟨9000, 5⟩)] hdrsUS.user_id hdrsUS.server_id 4000 :=
  ⟨by decide,
   (c3_failed_post_preserves_pacing [] [("u:s", ⟨9000, 5⟩)] hdrsUS argsPlain envFail
     "platform down" (by decide)).1,
   (c3_failed_post_preserves_pacing [] [("u:s", ⟨9000, 5⟩)] hdrsUS argsPlain envFail
     "platform down" (by decide)).2 4000⟩

/-- C4: on every successful token-endpoint exchange, propagation of the
rotated refresh token is attempted at exactly two configuration-update
URLs — the supplied URL (or the DEV environment override when set) and the
derived sibling URL (or the PROD override when set) — and whatever the two
propagation outcomes are, the refresh still returns the token response
obtained from the token endpoint. -/
theorem c4_propagation_failure_does_not_fail_refresh (env : RefreshEnv)
    (userId serverId : Option String) (url : String) (r : OAuth2TokenResponse)
    (b1 b2 : Bool) :
    (refreshTokenFlow env userId serverId url (.ok r) b1 b2).result = .ok r ∧
    (refreshTokenFlow env userId serverId url (.ok r) b1 b2).configCalls
      = [⟨userId, serverId, r.refresh_token, jsOrStr (envStr env.dev_omnimcp_be_url) url⟩,
         ⟨userId, serverId, r.refresh_token,
          jsOrStr (envStr env.prod_omnimcp_be_url) (deriveSibling url)⟩] := by
  unfold refreshTokenFlow update_config_prod
  simp

/-- C6: given a cached credential for the identity with `expires_at`
strictly in the future at both clock reads of the posting operation, the
whole `post_tweet` call performs zero invocations of the refresh flow and
the client is built from the cached access token. -/
theorem c6_cached_token_no_refresh (tc : TokenCache) (dc : DelayCache) (headers : Headers)
    (args : PostTweetArgs) (env : OncePostEnv) (tProfile : Nat)
    (ro2 : Except String OAuth2TokenResponse) (username : String) (c : TokenCacheEntry)
    (hc : mapLookup tc (cacheKey headers.user_id headers.server_id) = some c)
    (h1 : env.tClient < c.expires_at) (h2 : tProfile < c.expires_at) :
    (handlePostTweet tc dc headers args env tProfile ro2 username).refreshCalls = 0 ∧
    (getUserClient tc headers env.tClient env.refreshOutcome).result = .ok c.access_token := by
  have hg1 := getUserClient_hit tc headers env.tClient env.refreshOutcome c hc h1
  have hframe := handleOncePostTweet_frame tc dc headers args env
  have hcalls : (handleOncePostTweet tc dc headers args env).refreshCalls = 0 := by
    rw [hframe.2.1, hg1]
  have htc : (handleOncePostTweet tc dc headers args env).tokenCache = tc := by
    rw [hframe.1, hg1]
  refine ⟨?_, by rw [hg1]⟩
  unfold handlePostTweet
  cases hres : (handleOncePostTweet tc dc headers args env).result with
  | error e => simp [hres, hcalls]
  | ok id =>
      have hg2 := getUserClient_hit tc headers tProfile ro2 c hc h2
      simp [hres, htc, hg2, hcalls]

/-- C6 witness: a concrete posting operation with a cached unexpired token
("cached", expiring at 10000) performs zero refresh invocations even though
the refresh oracle would fail; the client uses the cached token. -/
theorem c6_cached_token_no_refresh_witness :
    (handlePostTweet [("u:s", ⟨"cached", 10000, none⟩)] [] hdrsUS argsPlain
        ⟨0, 0, .error "refresh would fail", [], .ok "42", 3, 1000⟩ 0
        (.error "refresh would fail") "bob").refreshCalls = 0 ∧
    (getUserClient [("u:s", ⟨"cached", 10000, none⟩)] hdrsUS 0
        (.error "refresh would fail")).result = .ok "cached" :=
  c6_cached_token_no_refresh [("u:s", ⟨"cached", 10000, none⟩)] [] hdrsUS argsPlain
    ⟨0, 0, .error "refresh would fail", [], .ok "42", 3, 1000⟩ 0
    (.error "refresh would fail") "bob" ⟨"cached", 10000, none⟩
    (by decide) (by decide) (by decide)

/-- C9: when the user or server identity header is absent, the pre-send
pacing check is skipped entirely (the operation never sleeps, whatever the
delay cache holds), yet after a successful post the pacer-record step still
runs, creating or overwriting a pacing entry under the degenerate key built
from the missing identifiers. -/
theorem c9_skip_check_still_record (tc : TokenCache) (dc : DelayCache) (headers : Headers)
    (args : PostTweetArgs) (env : OncePostEnv) (id : String)
    (habs : headers.user_id = none ∨ headers.server_id = none) :
    (handleOncePostTweet tc dc headers args env).waitedMs = 0 ∧
    ((handleOncePostTweet tc dc headers args env).result = .ok id → id ≠ "" →
      mapLookup (handleOncePostTweet tc dc headers args env).delayCache
          (cacheKey headers.user_id headers.server_id)
        = some ⟨env.tSend + generateRandomDelay env.rand * 1000, generateRandomDelay env.rand⟩) := by
  have hframe := handleOncePostTweet_frame tc dc headers args env
  constructor
  · rw [hframe.2.2]
    unfold pacingWaitMs
    rcases habs with h | h <;> simp [h, truthyStr]
  · intro hok hid
    rw [handleOncePostTweet_ok_nonempty_delay tc dc headers args env id hok hid]
    unfold setUserNextSendTime
    exact mapLookup_insert_self _ _ _

/-- C9 witness: with both identity headers absent and a blocking entry
under "undefined:undefined", a concrete post sleeps 0 ms and, after
succeeding, overwrites the pacing entry under "undefined:undefined". -/
theorem c9_skip_check_still_record_witness :
    (handleOncePostTweet [] [("undefined:undefined", ⟨999999, 5⟩)] hdrsAnon argsPlain
        envOk42).waitedMs = 0 ∧
    mapLookup (handleOncePostTweet [] [("undefined:undefined", ⟨999999, 5⟩)] hdrsAnon
        argsPlain envOk42).delayCache (cacheKey hdrsAnon.user_id hdrsAnon.server_id)
      = some ⟨5000, 4⟩ :=
  ⟨(c9_skip_check_still_record [] [("undefined:undefined", ⟨999999, 5⟩)] hdrsAnon argsPlain
      envOk42 "42" (Or.inl rfl)).1,
   (c9_skip_check_still_record [] [("undefined:undefined", ⟨999999, 5⟩)] hdrsAnon argsPlain
      envOk42 "42" (Or.inl rfl)).2 (by decide) (by decide)⟩

/-- C10: `/expired_token` deletes only the token-cache entry of the given
identity — every other token-cache key and the whole pacing state are
untouched — and symmetrically `/clear_delay` deletes only the pacing entry
of that identity and leaves the token cache unchanged. -/
theorem c10_clear_endpoints_frame (tc : TokenCache) (dc : DelayCache)
    (u s : Option String) (hu : truthyStr u = true) (hs : truthyStr s = true) :
    mapLookup (expiredTokenEndpoint tc dc u s).tokenCache (cacheKey u s) = none ∧
    (∀ k, k ≠ cacheKey u s →
      mapLookup (expiredTokenEndpoint tc dc u s).tokenCache k = mapLookup tc k) ∧
    (expiredTokenEndpoint tc dc u s).delayCache = dc ∧
    mapLookup (clearDelayEndpoint tc dc u s).delayCache (cacheKey u s) = none ∧
    (∀ k, k ≠ cacheKey u s →
      mapLookup (clearDelayEndpoint tc dc u s).delayCache k = mapLookup dc k) ∧
    (clearDelayEndpoint tc dc u s).tokenCache = tc := by
  refine ⟨?_, fun k hk => ?_, ?_, ?_, fun k hk => ?_, ?_⟩
  · simp [expiredTokenEndpoint, clearUserTokenCache, hu, hs, mapLookup_erase_self]
  · simp [expiredTokenEndpoint, clearUserTokenCache, hu, hs, mapLookup_erase_ne _ _ _ hk]
  · simp [expiredTokenEndpoint, clearUserTokenCache, hu, hs]
  · simp [clearDelayEndpoint, clearUserDelay, hu, hs, mapLookup_erase_self]
  · simp [clearDelayEndpoint, clearUserDelay, hu, hs, mapLookup_erase_ne _ _ _ hk]
  · simp [clearDelayEndpoint, clearUserDelay, hu, hs]

/-- C10 witness: concrete caches with entries for "u:s" and "v:s":
`/expired_token` removes only the "u:s" token entry and keeps the pacing
map whole; `/clear_delay` removes only the "u:s" pacing entry and keeps the
token cache whole. -/
theorem c10_clear_endpoints_frame_witness :
    mapLookup (expiredTokenEndpoint [("u:s", ⟨"t1", 5, none⟩), ("v:s", ⟨"t2", 6, none⟩)]
        [("u:s", ⟨7, 2⟩)] (some "u") (some "s")).tokenCache "u:s" = none ∧
    mapLookup (expiredTokenEndpoint [("u:s", ⟨"t1", 5, none⟩), ("v:s", ⟨"t2", 6, none⟩)]
        [("u:s", ⟨7, 2⟩)] (some "u") (some "s")).tokenCache "v:s" = some ⟨"t2", 6, none⟩ ∧
    (expiredTokenEndpoint [("u:s", ⟨"t1", 5, none⟩), ("v:s", ⟨"t2", 6, none⟩)]
        [("u:s", ⟨7, 2⟩)] (some "u") (some "s")).delayCache = [("u:s", ⟨7, 2⟩)] ∧
    mapLookup (clearDelayEndpoint [("u:s", ⟨"t1", 5, none⟩), ("v:s", ⟨"t2", 6, none⟩)]
        [("u:s", ⟨7, 2⟩)] (some "u") (some "s")).delayCache "u:s" = none ∧
    (clearDelayEndpoint [("u:s", ⟨"t1", 5, none⟩), ("v:s", ⟨"t2", 6, none⟩)]
        [("u:s", ⟨7, 2⟩)] (some "u") (some "s")).tokenCache
      = [("u:s", ⟨"t1", 5, none⟩), ("v:s", ⟨"t2", 6, none⟩)] :=
  ⟨(c10_clear_endpoints_frame [("u:s", ⟨"t1", 5, none⟩), ("v:s", ⟨"t2", 6, none⟩)]
      [("u:s", ⟨7, 2⟩)] (some "u") (some "s") (by decide) (by decide)).1,
   (c10_clear_endpoints_frame [("u:s", ⟨"t1", 5, none⟩), ("v:s", ⟨"t2", 6, none⟩)]
      [("u:s", ⟨7, 2⟩)] (some "u") (some "s") (by decide) (by decide)).2.1 "v:s" (by decide),
   (c10_clear_endpoints_frame [("u:s", ⟨"t1", 5, none⟩), ("v:s", ⟨"t2", 6, none⟩)]
      [("u:s", ⟨7, 2⟩)] (some "u") (some "s") (by decide) (by decide)).2.2.1,
   (c10_clear_endpoints_frame [("u:s", ⟨"t1", 5, none⟩), ("v:s", ⟨"t2", 6, none⟩)]
      [("u:s", ⟨7, 2⟩)] (some "u") (some "s") (by decide) (by decide)).2.2.2.1,
   (c10_clear_endpoints_frame [("u:s", ⟨"t1", 5, none⟩), ("v:s", ⟨"t2", 6, none⟩)]
      [("u:s", ⟨7, 2⟩)] (some "u") (some "s") (by decide) (by decide)).2.2.2.2.2⟩

theorem handlePostTweetThread_fst (tc : TokenCache) (dc : DelayCache) (headers : Headers)
    (tweets : List (PostTweetArgs × OncePostEnv)) (tP : Nat)
    (ro2 : Except String OAuth2TokenResponse) (uname : String) :
    (handlePostTweetThread tc dc headers tweets tP ro2 uname).1.tweetIds
      = (handlePostTweetThreadLoop headers tc dc "" tweets).tweetIds ∧
    (handlePostTweetThread tc dc headers tweets tP ro2 uname).1.parentsUsed
      = (handlePostTweetThreadLoop headers tc dc "" tweets).parentsUsed ∧
    (handlePostTweetThread tc dc headers tweets tP ro2 uname).1.result
      = (handlePostTweetThreadLoop headers tc dc "" tweets).result := by
  unfold handlePostTweetThread
  cases h1 : (handlePostTweetThreadLoop headers tc dc "" tweets).result with
  | error e => simp [h1]
  | ok u =>
      simp only [h1]
      cases h2 : (getUserClient (handlePostTweetThreadLoop headers tc dc "" tweets).tokenCache
          headers tP ro2).result <;> simp [h1, h2]

/-- C5: for a thread request `[A, B, C]`: if all three posts succeed the
loop produces exactly the three identifiers `[a, b, c]`, B is posted with
its parent-reference overwritten to A's produced identifier and C with
parent-reference B's identifier; if posting B fails with a platform error,
C is never attempted (only two posts are attempted at all), exactly A's
identifier was produced, and B's error propagates as the result. -/
theorem c5_thread_chaining_and_abort (tc : TokenCache) (dc : DelayCache) (headers : Headers)
    (argA argB argC : PostTweetArgs) (envA envB envC envB2 envC2 : OncePostEnv)
    (tP tP2 : Nat) (ro2 ro22 : Except String OAuth2TokenResponse) (uname uname2 : String)
    (rA rB rC rB2 : OAuth2TokenResponse) (a b c eB : String)
    (hra : envA.refreshOutcome = .ok rA) (hia : argA.images = []) (hva : argA.videos = [])
    (hpa : envA.postOutcome = .ok a) (ha : a ≠ "")
    (hrb : envB.refreshOutcome = .ok rB) (hib : argB.images = []) (hvb : argB.videos = [])
    (hpb : envB.postOutcome = .ok b) (hb : b ≠ "")
    (hrc : envC.refreshOutcome = .ok rC) (hic : argC.images = []) (hvc : argC.videos = [])
    (hpc : envC.postOutcome = .ok c) (hc : c ≠ "")
    (hrb2 : envB2.refreshOutcome = .ok rB2) (hpb2 : envB2.postOutcome = .error eB) :
    ((handlePostTweetThread tc dc headers [(argA, envA), (argB, envB), (argC, envC)]
        tP ro2 uname).1.tweetIds = [a, b, c] ∧
     (handlePostTweetThread tc dc headers [(argA, envA), (argB, envB), (argC, envC)]
        tP ro2 uname).1.parentsUsed = [argA.reply_to_tweet_id, some a, some b] ∧
     (handlePostTweetThread tc dc headers [(argA, envA), (argB, envB), (argC, envC)]
        tP ro2 uname).1.result = .ok ()) ∧
    ((handlePostTweetThread tc dc headers [(argA, envA), (argB, envB2), (argC, envC2)]
        tP2 ro22 uname2).1.tweetIds = [a] ∧
     (handlePostTweetThread tc dc headers [(argA, envA), (argB, envB2), (argC, envC2)]
        tP2 ro22 uname2).1.parentsUsed = [argA.reply_to_tweet_id, some a] ∧
     (handlePostTweetThread tc dc headers [(argA, envA), (argB, envB2), (argC, envC2)]
        tP2 ro22 uname2).1.result = .error eB) := by
  have fst1 := handlePostTweetThread_fst tc dc headers
    [(argA, envA), (argB, envB), (argC, envC)] tP ro2 uname
  have fst2 := handlePostTweetThread_fst tc dc headers
    [(argA, envA), (argB, envB2), (argC, envC2)] tP2 ro22 uname2
  rw [fst1.1, fst1.2.1, fst1.2.2, fst2.1, fst2.2.1, fst2.2.2]
  have sA := handleOncePostTweet_success tc dc headers argA envA rA a hra hia hva hpa ha
  have sB : ∀ tc2 dc2, handleOncePostTweet tc2 dc2 headers
      ⟨argB.text, some a, argB.images, argB.videos⟩ envB =
      ⟨.ok b, (getUserClient tc2 headers envB.tClient envB.refreshOutcome).tokenCache,
       setUserNextSendTime dc2 headers.user_id headers.server_id
         (generateRandomDelay envB.rand) envB.tSend,
       (getUserClient tc2 headers envB.tClient envB.refreshOutcome).refreshCalls,
       pacingWaitMs dc2 headers.user_id headers.server_id envB.tCheck⟩ :=
    fun tc2 dc2 => handleOncePostTweet_success tc2 dc2 headers
      ⟨argB.text, some a, argB.images, argB.videos⟩ envB rB b hrb hib hvb hpb hb
  have sC : ∀ tc2 dc2, handleOncePostTweet tc2 dc2 headers
      ⟨argC.text, some b, argC.images, argC.videos⟩ envC =
      ⟨.ok c, (getUserClient tc2 headers envC.tClient envC.refreshOutcome).tokenCache,
       setUserNextSendTime dc2 headers.user_id headers.server_id
         (generateRandomDelay envC.rand) envC.tSend,
       (getUserClient tc2 headers envC.tClient envC.refreshOutcome).refreshCalls,
       pacingWaitMs dc2 headers.user_id headers.server_id envC.tCheck⟩ :=
    fun tc2 dc2 => handleOncePostTweet_success tc2 dc2 headers
      ⟨argC.text, some b, argC.images, argC.videos⟩ envC rC c hrc hic hvc hpc hc
  have fB : ∀ tc2 dc2, (handleOncePostTweet tc2 dc2 headers
      ⟨argB.text, some a, argB.images, argB.videos⟩ envB2).result = .error eB :=
    fun tc2 dc2 => (handleOncePostTweet_post_error tc2 dc2 headers
      ⟨argB.text, some a, argB.images, argB.videos⟩ envB2 rB2 eB hrb2 hib hvb hpb2).1
  constructor
  · simp [handlePostTweetThreadLoop, setReplyTo, sA, sB, sC, ha, hb, hc]
  · simp [handlePostTweetThreadLoop, setReplyTo, sA, fB, ha]

/-- C5 witness: a concrete three-tweet thread where all posts succeed
("1", "2", "3") and the same thread where the second post throws: the
success run produces exactly those three ids with the chained parents, the
failure run stops after B with only A's id produced. -/
theorem c5_thread_chaining_and_abort_witness :
    ((handlePostTweetThread [] [] hdrsUS
        [(argsPlain, ⟨0, 0, .ok tokR, [], .ok "1", 0, 0⟩),
         (argsPlain, ⟨10, 10, .ok tokR, [], .ok "2", 0, 10⟩),
         (argsPlain, ⟨20, 20, .ok tokR, [], .ok "3", 0, 20⟩)] 30 (.ok tokR)
        "bob").1.tweetIds = ["1", "2", "3"] ∧
     (handlePostTweetThread [] [] hdrsUS
        [(argsPlain, ⟨0, 0, .ok tokR, [], .ok "1", 0, 0⟩),
         (argsPlain, ⟨10, 10, .ok tokR, [], .ok "2", 0, 10⟩),
         (argsPlain, ⟨20, 20, .ok tokR, [], .ok "3", 0, 20⟩)] 30 (.ok tokR)
        "bob").1.parentsUsed = [none, some "1", some "2"] ∧
     (handlePostTweetThread [] [] hdrsUS
        [(argsPlain, ⟨0, 0, .ok tokR, [], .ok "1", 0, 0⟩),
         (argsPlain, ⟨10, 10, .ok tokR, [], .ok "2", 0, 10⟩),
         (argsPlain, ⟨20, 20, .ok tokR, [], .ok "3", 0, 20⟩)] 30 (.ok tokR)
        "bob").1.result = .ok ()) ∧
    ((handlePostTweetThread [] [] hdrsUS
        [(argsPlain, ⟨0, 0, .ok tokR, [], .ok "1", 0, 0⟩),
         (argsPlain, ⟨10, 10, .ok tokR, [], .error "B down", 0, 10⟩),
         (argsPlain, ⟨20, 20, .ok tokR, [], .ok "3", 0, 20⟩)] 30 (.ok tokR)
        "bob").1.tweetIds = ["1"] ∧
     (handlePostTweetThread [] [] hdrsUS
        [(argsPlain, ⟨0, 0, .ok tokR, [], .ok "1", 0, 0⟩),
         (argsPlain, ⟨10, 10, .ok tokR, [], .error "B down", 0, 10⟩),
         (argsPlain, ⟨20, 20, .ok tokR, [], .ok "3", 0, 20⟩)] 30 (.ok tokR)
        "bob").1.parentsUsed = [none, some "1"] ∧
     (handlePostTweetThread [] [] hdrsUS
        [(argsPlain, ⟨0, 0, .ok tokR, [], .ok "1", 0, 0⟩),
         (argsPlain, ⟨10, 10, .ok tokR, [], .error "B down", 0, 10⟩),
         (argsPlain, ⟨20, 20, .ok tokR, [], .ok "3", 0, 20⟩)] 30 (.ok tokR)
        "bob").1.result = .error "B down") :=
  c5_thread_chaining_and_abort [] [] hdrsUS argsPlain argsPlain argsPlain
    ⟨0, 0, .ok tokR, [], .ok "1", 0, 0⟩ ⟨10, 10, .ok tokR, [], .ok "2", 0, 10⟩
    ⟨20, 20, .ok tokR, [], .ok "3", 0, 20⟩ ⟨10, 10, .ok tokR, [], .error "B down", 0, 10⟩
    ⟨20, 20, .ok tokR, [], .ok "3", 0, 20⟩ 30 30 (.ok tokR) (.ok tokR) "bob" "bob"
    tokR tokR tokR tokR "1" "2" "3" "B down"
    rfl rfl rfl rfl (by decide) rfl rfl rfl rfl (by decide)
    rfl rfl rfl rfl (by decide) rfl rfl

/-- Sample refresh response whose `expires_in` is present but zero. -/
def tokRZero : OAuth2TokenResponse := ⟨"tok", "bearer", some 0, some "rt2", none⟩

/-- Sample environment for the zero-`expires_in` run (all clock reads at 5). -/
def envZero : OncePostEnv := ⟨5, 5, .ok tokRZero, [], .ok "9", 0, 5⟩

/-- C1 counterexample: the claim says the stored expiry is `now + expires_in`
whenever the refresh response carries `expires_in`, with the 3600s default
reserved for responses that omit it.  But for a response with
`expires_in = 0` (present, not omitted) the code's `expires_in || ONE_HOUR_MS`
treats 0 as absent: the posting operation at now=5 stores expiry
5 + 3600*1000, not 5 + 0. -/
theorem c1_zero_expires_in_counterexample :
    tokRZero.expires_in = some 0 ∧
    mapLookup (handlePostTweet [] [] hdrsUS argsPlain envZero 5 (.ok tokRZero)
        "bob").tokenCache (cacheKey hdrsUS.user_id hdrsUS.server_id)
      = some ⟨"tok", 5 + 3600 * 1000, some "rt2"⟩ ∧
    (5 + 3600 * 1000 : Nat) ≠ 5 + 0 := by decide

/-- C1 (amended): for every posting request whose identity key has no
cached credential or whose cached credential has `expires_at ≤ now`, the
operation invokes the refresh flow exactly once — even though client
resolution runs twice, because the profile-resolution read (which happens
before the freshly stored entry expires) hits the cache — and stores a
cache entry whose expiry is `now + expires_in` seconds when `expires_in`
is present and non-zero, and `now + 3600` seconds when `expires_in` is
absent or zero (`jsOrNat` is exactly that `||` fallback). -/
theorem c1_refresh_once_and_cache_expiry (tc : TokenCache) (dc : DelayCache)
    (headers : Headers) (args : PostTweetArgs) (env : OncePostEnv) (tProfile : Nat)
    (ro2 : Except String OAuth2TokenResponse) (username : String) (r : OAuth2TokenResponse)
    (hr : env.refreshOutcome = .ok r)
    (hstale : ∀ c, mapLookup tc (cacheKey headers.user_id headers.server_id) = some c →
      c.expires_at ≤ env.tClient)
    (hprofile : tProfile < env.tClient + jsOrNat r.expires_in ONE_HOUR_MS * 1000) :
    (handlePostTweet tc dc headers args env tProfile ro2 username).refreshCalls = 1 ∧
    mapLookup (handlePostTweet tc dc headers args env tProfile ro2 username).tokenCache
        (cacheKey headers.user_id headers.server_id)
      = some ⟨r.access_token, env.tClient + jsOrNat r.expires_in ONE_HOUR_MS * 1000,
          r.refresh_token⟩ := by
  have hg1 : getUserClient tc headers env.tClient env.refreshOutcome =
      ⟨.ok r.access_token,
       mapInsert tc (cacheKey headers.user_id headers.server_id)
         ⟨r.access_token, env.tClient + jsOrNat r.expires_in ONE_HOUR_MS * 1000,
          r.refresh_token⟩, 1⟩ := by
    rw [hr]
    exact getUserClient_refresh tc headers env.tClient r hstale
  have hframe := handleOncePostTweet_frame tc dc headers args env
  have hcalls : (handleOncePostTweet tc dc headers args env).refreshCalls = 1 := by
    rw [hframe.2.1, hg1]
  have htc : (handleOncePostTweet tc dc headers args env).tokenCache =
      mapInsert tc (cacheKey headers.user_id headers.server_id)
        ⟨r.access_token, env.tClient + jsOrNat r.expires_in ONE_HOUR_MS * 1000,
         r.refresh_token⟩ := by
    rw [hframe.1, hg1]
  unfold handlePostTweet
  cases hres : (handleOncePostTweet tc dc headers args env).result with
  | error e => simp [hres, hcalls, htc, mapLookup_insert_self]
  | ok id =>
      have hlook := mapLookup_insert_self tc (cacheKey headers.user_id headers.server_id)
        (⟨r.access_token, env.tClient + jsOrNat r.expires_in ONE_HOUR_MS * 1000,
          r.refresh_token⟩ : TokenCacheEntry)
      have hg2 := getUserClient_hit
        (mapInsert tc (cacheKey headers.user_id headers.server_id)
          ⟨r.access_token, env.tClient + jsOrNat r.expires_in ONE_HOUR_MS * 1000,
           r.refresh_token⟩) headers tProfile ro2
        ⟨r.access_token, env.tClient + jsOrNat r.expires_in ONE_HOUR_MS * 1000,
         r.refresh_token⟩ hlook hprofile
      simp [hres, htc, hg2, hcalls, mapLookup_insert_self]

/-- C1 witness: a concrete posting with an empty cache and a refresh
response carrying `expires_in = 7200`: exactly one refresh (the second
resolution hits the cache even though its oracle would fail) and the stored
expiry is 0 + 7200*1000. -/
theorem c1_refresh_once_and_cache_expiry_witness :
    (handlePostTweet [] [] hdrsUS argsPlain envOk42 0 (.error "never used")
        "bob").refreshCalls = 1 ∧
    mapLookup (handlePostTweet [] [] hdrsUS argsPlain envOk42 0 (.error "never used")
        "bob").tokenCache (cacheKey hdrsUS.user_id hdrsUS.server_id)
      = some ⟨"tok", 7200000, some "rt2"⟩ :=
  c1_refresh_once_and_cache_expiry [] [] hdrsUS argsPlain envOk42 0 (.error "never used")
    "bob" tokR rfl (fun c hc => by simp [mapLookup] at hc) (by decide)

/-- Pacing environment of the first anonymous post of the C7 run: posts
"1" at t=0 with random draw 4 (delay 5s, gate at 5000). -/
def envP1 : OncePostEnv := ⟨0, 0, .ok tokR, [], .ok "1", 4, 0⟩

/-- Pacing environment of the second anonymous post of the C7 run: posts
"2" at t=1000 with random draw 0 (delay 1s, gate at 2000). -/
def envP2 : OncePostEnv := ⟨1000, 1000, .ok tokR, [], .ok "2", 0, 1000⟩

/-- C7 counterexample: for the identity key "undefined:undefined" (absent
identity headers) the pacing pre-check is skipped, so a second successful
post at t=1000 overwrites the stored `nextSendTime` 5000 with 2000 — a
strict decrease with no clearing in between, refuting monotonicity for
every identity. -/
theorem c7_monotonicity_counterexample :
    (handleOncePostTweet [] [] hdrsAnon argsPlain envP1).result = .ok "1" ∧
    mapLookup (handleOncePostTweet [] [] hdrsAnon argsPlain envP1).delayCache
        "undefined:undefined" = some ⟨5000, 5⟩ ∧
    (handleOncePostTweet (handleOncePostTweet [] [] hdrsAnon argsPlain envP1).tokenCache
        (handleOncePostTweet [] [] hdrsAnon argsPlain envP1).delayCache hdrsAnon argsPlain
        envP2).result = .ok "2" ∧
    mapLookup (handleOncePostTweet
        (handleOncePostTweet [] [] hdrsAnon argsPlain envP1).tokenCache
        (handleOncePostTweet [] [] hdrsAnon argsPlain envP1).delayCache hdrsAnon argsPlain
        envP2).delayCache "undefined:undefined" = some ⟨2000, 1⟩ ∧
    (2000 : Nat) < 5000 := by decide

/-- C7 (amended): for every identity whose user and server ids are both
present and non-empty — so that the pacing pre-check is not skipped — the
stored `nextSendTime` is monotonically non-decreasing across successive
successful posts (absent explicit clearing): the new gate
`tSend + delay*1000` is at least the previous gate, because the pre-check
makes the post wait out the previous gate first.  (For the degenerate key
built from missing ids the pre-check is skipped and the value can
decrease.) -/
theorem c7_next_send_time_monotone (tc : TokenCache) (dc : DelayCache) (headers : Headers)
    (args : PostTweetArgs) (env : OncePostEnv) (u s id : String) (old : UserDelayInfo)
    (hu : headers.user_id = some u) (hs : headers.server_id = some s)
    (hu2 : u ≠ "") (hs2 : s ≠ "")
    (hold : mapLookup dc (cacheKeyStr u s) = some old)
    (htime : env.tCheck + pacingWaitMs dc headers.user_id headers.server_id env.tCheck
      ≤ env.tSend)
    (hok : (handleOncePostTweet tc dc headers args env).result = .ok id) (hid : id ≠ "") :
    mapLookup (handleOncePostTweet tc dc headers args env).delayCache (cacheKeyStr u s)
      = some ⟨env.tSend + generateRandomDelay env.rand * 1000, generateRandomDelay env.rand⟩ ∧
    old.nextSendTime ≤ env.tSend + generateRandomDelay env.rand * 1000 := by
  have hdel := handleOncePostTweet_ok_nonempty_delay tc dc headers args env id hok hid
  have hkey : cacheKey headers.user_id headers.server_id = cacheKeyStr u s := by
    rw [hu, hs]; rfl
  constructor
  · rw [hdel]
    unfold setUserNextSendTime
    rw [hkey]
    exact mapLookup_insert_self _ _ _
  · unfold pacingWaitMs at htime
    rw [hu, hs] at htime
    have htu : truthyStr (some u) = true := by simp [truthyStr, hu2]
    have hts : truthyStr (some s) = true := by simp [truthyStr, hs2]
    simp only [htu, hts, Bool.and_self, if_true] at htime
    unfold checkUserCanSend at htime
    have hkey2 : cacheKey (some u) (some s) = cacheKeyStr u s := rfl
    rw [hkey2, hold] at htime
    by_cases hle : old.nextSendTime ≤ env.tCheck
    · simp only [hle, if_true] at htime
      have hb := generateRandomDelay_bounds env.rand
      omega
    · simp [hle] at htime
      have hge := le_ceilDiv_mul (old.nextSendTime - env.tCheck)
      omega

/-- C7 witness: identity "u:s" with gate 5000 after a first post; the next
successful post (which had to wait until t=5000) draws delay 1 and moves
the gate to 6000 ≥ 5000. -/
theorem c7_next_send_time_monotone_witness :
    mapLookup (handleOncePostTweet [] [("u:s", ⟨5000, 5⟩)] hdrsUS argsPlain
        ⟨0, 5000, .ok tokR, [], .ok "9", 0, 5000⟩).delayCache "u:s" = some ⟨6000, 1⟩ ∧
    (5000 : Nat) ≤ 6000 :=
  have h := c7_next_send_time_monotone [] [("u:s", ⟨5000, 5⟩)] hdrsUS argsPlain
    ⟨0, 5000, .ok tokR, [], .ok "9", 0, 5000⟩ "u" "s" "9" ⟨5000, 5⟩
    rfl rfl (by decide) (by decide) (by decide) (by decide) (by decide) (by decide)
  ⟨h.1, h.2⟩

/-- C8 counterexample: with both identity headers absent, a concrete
posting request keys both caches under "undefined:undefined" (JS template
interpolation of `undefined`), not under the claimed degenerate key ":",
where nothing is ever stored. -/
theorem c8_colon_key_counterexample :
    cacheKey none none = "undefined:undefined" ∧
    cacheKey none none ≠ ":" ∧
    mapLookup (handleOncePostTweet [] [] hdrsAnon argsPlain envOk42).tokenCache ":" = none ∧
    mapLookup (handleOncePostTweet [] [] hdrsAnon argsPlain envOk42).delayCache ":" = none ∧
    mapLookup (handleOncePostTweet [] [] hdrsAnon argsPlain envOk42).tokenCache
        "undefined:undefined" = some ⟨"tok", 7200000, some "rt2"⟩ ∧
    mapLookup (handleOncePostTweet [] [] hdrsAnon argsPlain envOk42).delayCache
        "undefined:undefined" = some ⟨5000, 4⟩ := by decide

theorem cacheKey_ne_colon (u s : Option String) (h : u = none ∨ s = none) :
    cacheKey u s ≠ ":" := by
  intro heq
  have hlen := congrArg String.length heq
  have h9 : ("undefined" : String).length = 9 := by decide
  have h1 : (":" : String).length = 1 := by decide
  unfold cacheKey cacheKeyStr at hlen
  rw [String.length_append, String.length_append] at hlen
  rcases h with h | h
  · rw [h] at hlen
    simp [jsStr, h9, h1] at hlen
    omega
  · rw [h] at hlen
    simp [jsStr, h9, h1] at hlen

/-- Sample headers with the user identity header present and the server
identity header absent. -/
def hdrsHalf : Headers :=
  ⟨some "cid", some "cs", some "rtk", none, some "u", none, some "http://omnimcp-be/x"⟩

/-- C8 (amended): for every request in which the user identifier and/or
server identifier header is absent, the identity key used for the token
cache and the pacing state is the composite with the literal string
"undefined" substituted for each missing component (so "undefined:undefined"
when both are absent, "u:undefined" when only the server id is missing),
and never the claimed degenerate key ":": a refresh stores the token under
that composite key and a successful post records the pacing entry under
it. -/
theorem c8_degenerate_undefined_key (tc : TokenCache) (dc : DelayCache) (headers : Headers)
    (args : PostTweetArgs) (env : OncePostEnv) (r : OAuth2TokenResponse) (id : String)
    (habs : headers.user_id = none ∨ headers.server_id = none)
    (hr : env.refreshOutcome = .ok r)
    (hstale : ∀ c, mapLookup tc (cacheKey headers.user_id headers.server_id) = some c →
      c.expires_at ≤ env.tClient) :
    cacheKey headers.user_id headers.server_id
      = jsStr headers.user_id ++ ":" ++ jsStr headers.server_id ∧
    (headers.user_id = none → jsStr headers.user_id = "undefined") ∧
    (headers.server_id = none → jsStr headers.server_id = "undefined") ∧
    cacheKey headers.user_id headers.server_id ≠ ":" ∧
    mapLookup (handleOncePostTweet tc dc headers args env).tokenCache
        (cacheKey headers.user_id headers.server_id)
      = some ⟨r.access_token, env.tClient + jsOrNat r.expires_in ONE_HOUR_MS * 1000,
          r.refresh_token⟩ ∧
    ((handleOncePostTweet tc dc headers args env).result = .ok id → id ≠ "" →
      mapLookup (handleOncePostTweet tc dc headers args env).delayCache
          (cacheKey headers.user_id headers.server_id)
        = some ⟨env.tSend + generateRandomDelay env.rand * 1000,
            generateRandomDelay env.rand⟩) := by
  have hg1 : getUserClient tc headers env.tClient env.refreshOutcome =
      ⟨.ok r.access_token,
       mapInsert tc (cacheKey headers.user_id headers.server_id)
         ⟨r.access_token, env.tClient + jsOrNat r.expires_in ONE_HOUR_MS * 1000,
          r.refresh_token⟩, 1⟩ := by
    rw [hr]
    exact getUserClient_refresh tc headers env.tClient r hstale
  have hframe := handleOncePostTweet_frame tc dc headers args env
  refine ⟨rfl, fun hu => by rw [hu]; rfl, fun hs => by rw [hs]; rfl,
    cacheKey_ne_colon headers.user_id headers.server_id habs, ?_, ?_⟩
  · rw [hframe.1, hg1]
    exact mapLookup_insert_self _ _ _
  · intro hok hid
    rw [handleOncePostTweet_ok_nonempty_delay tc dc headers args env id hok hid]
    unfold setUserNextSendTime
    exact mapLookup_insert_self _ _ _

/-- C8 amended-claim witness: a concrete request whose server identity
header alone is absent keys both caches under "u:undefined" (not ":"), and
one with both headers absent keys them under "undefined:undefined". -/
theorem c8_degenerate_undefined_key_witness :
    cacheKey hdrsHalf.user_id hdrsHalf.server_id = "u:undefined" ∧
    cacheKey hdrsHalf.user_id hdrsHalf.server_id ≠ ":" ∧
    mapLookup (handleOncePostTweet [] [] hdrsHalf argsPlain envOk42).tokenCache
        "u:undefined" = some ⟨"tok", 7200000, some "rt2"⟩ ∧
    mapLookup (handleOncePostTweet [] [] hdrsHalf argsPlain envOk42).delayCache
        "u:undefined" = some ⟨5000, 4⟩ ∧
    mapLookup (handleOncePostTweet [] [] hdrsAnon argsPlain envOk42).delayCache
        "undefined:undefined" = some ⟨5000, 4⟩ :=
  have h := c8_degenerate_undefined_key [] [] hdrsHalf argsPlain envOk42 tokR "42"
    (Or.inr rfl) rfl (fun c hc => by simp [mapLookup] at hc)
  have h2 := c8_degenerate_undefined_key [] [] hdrsAnon argsPlain envOk42 tokR "42"
    (Or.inl rfl) rfl (fun c hc => by simp [mapLookup] at hc)
  ⟨by decide, h.2.2.2.1, h.2.2.2.2.1, h.2.2.2.2.2 (by decide) (by decide),
   h2.2.2.2.2.2 (by decide) (by decide)⟩

end TwitterMcp
